import Mathlib

/-!
Verification of `Sources/CThreadCommissioner/include/ThreadCommissioner.h`,
the single source file of the ThreadCommissionerKit repository.

The header is an umbrella header: comments, blank lines, an include guard,
eight `#import` directives for mbedTLS headers, one `#include <stddef.h>`,
an `extern "C"` linkage block guarded by `#ifdef __cplusplus`, and one
three-line function prototype.  We embed the file line by line, together
with a model of the C preprocessor restricted to the directives the file
uses, and prove the specified properties of that embedding.
-/

/-- A C type expression, as written in the header's prototype. -/
inductive CType where
  | int
  | size_t
  | unsignedChar
  | named (n : String)
  | pointer (t : CType)
  | constQual (t : CType)
deriving DecidableEq, BEq

/-- One parameter of a C function prototype: its type and its name. -/
structure CParamDecl where
  type : CType
  name : String
deriving DecidableEq, BEq

/-- A C function prototype: return type, function name, parameter list. -/
structure FunPrototype where
  ret : CType
  name : String
  params : List CParamDecl
deriving DecidableEq, BEq

/-- The prototype declared on lines 28-30 of ThreadCommissioner.h:
`int mbedtls_ssl_set_hs_ecjpake_password(mbedtls_ssl_context *ssl,
const unsigned char *pw, size_t pw_len);`. -/
def ecjpakePrototype : FunPrototype :=
  { ret := CType.int
    name := "mbedtls_ssl_set_hs_ecjpake_password"
    params :=
      [ { type := CType.pointer (CType.named "mbedtls_ssl_context"), name := "ssl" }
      , { type := CType.pointer (CType.constQual CType.unsignedChar), name := "pw" }
      , { type := CType.size_t, name := "pw_len" } ] }

/-- Transcribed from the SPEC's external-interfaces section (section 6), not
from the header: `int mbedtls_ssl_set_hs_ecjpake_password(mbedtls_ssl_context
*ssl, const unsigned char *pw, size_t pw_len);`.  Used only to compare the
spec's signature against the one embedded from the source. -/
def specEcjpakeSignature : FunPrototype :=
  { ret := CType.int
    name := "mbedtls_ssl_set_hs_ecjpake_password"
    params :=
      [ { type := CType.pointer (CType.named "mbedtls_ssl_context"), name := "ssl" }
      , { type := CType.pointer (CType.constQual CType.unsignedChar), name := "pw" }
      , { type := CType.size_t, name := "pw_len" } ] }

/-- One physical line of the header, classified by the construct it carries.
Constructors `funcDefLine`, `structDefLine`, `controlFlowLine` and
`statementLine` cover constructs a C header could contain but this file is
claimed not to; they let the absence claims be stated non-vacuously. -/
inductive HeaderLine where
  | comment (text : String)
  | blank
  | ppIfndef (m : String)
  | ppIfdef (m : String)
  | ppDefine (m : String)
  | ppEndif
  | ppImport (path : String)
  | ppInclude (path : String)
  | externCOpen
  | externCClose
  | declStart (p : FunPrototype)
  | declCont (text : String)
  | funcDefLine (p : FunPrototype)
  | structDefLine (n : String)
  | controlFlowLine (text : String)
  | statementLine (text : String)
deriving DecidableEq, BEq

open HeaderLine

/-- The 36 physical lines of ThreadCommissioner.h, in order.  The function
prototype spans physical lines 28-30: line 28 is `declStart` carrying the
whole parsed prototype, lines 29 and 30 are its continuation lines. -/
def tcLines : List HeaderLine :=
  [ comment ""                                                     -- 1
  , comment "  ThreadCommissioner.h"                               -- 2
  , comment "  ThreadCommissioner"                                 -- 3
  , comment ""                                                     -- 4
  , comment "  Umbrella header for Thread Commissioner package"    -- 5
  , comment ""                                                     -- 6
  , blank                                                          -- 7
  , ppIfndef "ThreadCommissioner_h"                                -- 8
  , ppDefine "ThreadCommissioner_h"                                -- 9
  , blank                                                          -- 10
  , comment " Import from mbedTLS framework"                       -- 11
  , ppImport "mbedtls/ssl.h"                                       -- 12
  , ppImport "mbedtls/net_sockets.h"                               -- 13
  , ppImport "mbedtls/entropy.h"                                   -- 14
  , ppImport "mbedtls/ctr_drbg.h"                                  -- 15
  , ppImport "mbedtls/error.h"                                     -- 16
  , ppImport "mbedtls/debug.h"                                     -- 17
  , ppImport "mbedtls/timing.h"                                    -- 18
  , ppImport "mbedtls/ssl_ciphersuites.h"                          -- 19
  , blank                                                          -- 20
  , ppInclude "stddef.h"                                           -- 21
  , blank                                                          -- 22
  , ppIfdef "__cplusplus"                                          -- 23
  , externCOpen                                                    -- 24
  , ppEndif                                                        -- 25
  , blank                                                          -- 26
  , comment " EC-JPAKE password function declaration"              -- 27
  , declStart ecjpakePrototype                                     -- 28
  , declCont "const unsigned char *pw,"                            -- 29
  , declCont "size_t pw_len);"                                     -- 30
  , blank                                                          -- 31
  , ppIfdef "__cplusplus"                                          -- 32
  , externCClose                                                   -- 33
  , ppEndif                                                        -- 34
  , blank                                                          -- 35
  , ppEndif                                                        -- 36
  ]

/-! ## Line classifiers -/

/-- The paths of the mbedTLS headers pulled in on lines 12-19. -/
def mbedtlsImports : List String :=
  [ "mbedtls/ssl.h", "mbedtls/net_sockets.h", "mbedtls/entropy.h"
  , "mbedtls/ctr_drbg.h", "mbedtls/error.h", "mbedtls/debug.h"
  , "mbedtls/timing.h", "mbedtls/ssl_ciphersuites.h" ]

/-- The import path carried by a line, when the line is an `#import`. -/
def importPathOf : HeaderLine → Option String
  | ppImport p => some p
  | _ => none

/-- A function prototype declared (not re-exported) by a line. -/
def ownPrototypeOf : HeaderLine → Option FunPrototype
  | declStart p => some p
  | _ => none

/-- Whether the line is a function definition (a prototype with a body). -/
def isFuncDefLine : HeaderLine → Bool
  | funcDefLine _ => true
  | _ => false

/-- Whether the line carries original logic: a function definition, a
struct/union/enum/typedef definition, a control-flow statement, or any
other executable statement. -/
def isOriginalLogic : HeaderLine → Bool
  | funcDefLine _ => true
  | structDefLine _ => true
  | controlFlowLine _ => true
  | statementLine _ => true
  | _ => false

/-- Whether the line is a preprocessor directive (include guard directives,
`#ifdef`/`#endif`, `#import`, `#include`). -/
def isPpDirective : HeaderLine → Bool
  | ppIfndef _ => true
  | ppIfdef _ => true
  | ppDefine _ => true
  | ppEndif => true
  | ppImport _ => true
  | ppInclude _ => true
  | _ => false

/-- Whether the line is part of the single extern declaration: the prototype
lines 28-30 or the `extern "C"` linkage-specification braces wrapping it. -/
def isExternDeclPart : HeaderLine → Bool
  | declStart _ => true
  | declCont _ => true
  | externCOpen => true
  | externCClose => true
  | _ => false

/-- Whether the line is a comment. -/
def isCommentLine : HeaderLine → Bool
  | comment _ => true
  | _ => false

/-- Whether the line is blank. -/
def isBlankLine : HeaderLine → Bool
  | blank => true
  | _ => false

/-- Whether the line starts a declaration of this header's own. -/
def isDeclStart : HeaderLine → Bool
  | declStart _ => true
  | _ => false

/-- The three kinds of content the spec's budget sentence enumerates:
include directives (`#import`/`#include`), guard macro directives
(`#ifndef`/`#define`/`#ifdef`/`#endif`), and the single extern declaration
(counting generously: its `extern "C"` wrapper lines too). -/
def isIncludeGuardOrExtern (l : HeaderLine) : Bool :=
  isPpDirective l || isExternDeclPart l

/-! ## Preprocessor model

A model of the C preprocessor restricted to the directives the header uses:
a set of defined macro names, a stack of conditional-group states, and the
list of lines emitted into the translation unit.  `#import` and `#include`
are treated alike: both emit the directive line (standing for the inclusion
of the named file); the include-once refinement of `#import` is irrelevant
here because no path occurs twice.  Comments and blank lines are removed in
an earlier translation phase, before directives execute, so they emit
nothing. -/

/-- Preprocessor state: defined macros, the stack of values of the open
conditional groups (innermost first), and the lines emitted so far. -/
structure PPState where
  defined : List String
  stack : List Bool
  emitted : List HeaderLine
deriving DecidableEq, BEq

/-- A line is kept only if every enclosing conditional group is active. -/
def ppActive (st : PPState) : Bool :=
  st.stack.all (fun b => b)

/-- Emit a line when the current region is active. -/
def ppEmit (st : PPState) (l : HeaderLine) : PPState :=
  if ppActive st then { st with emitted := st.emitted ++ [l] } else st

/-- Process one line: conditional directives push/pop the stack, `#define`
extends the macro set when active, comments and blank lines vanish, every
other line is emitted when active. -/
def ppStep (st : PPState) : HeaderLine → PPState
  | ppIfndef m => { st with stack := (!(st.defined.contains m)) :: st.stack }
  | ppIfdef m => { st with stack := (st.defined.contains m) :: st.stack }
  | ppEndif => { st with stack := st.stack.tail }
  | ppDefine m =>
      if ppActive st then { st with defined := m :: st.defined } else st
  | comment _ => st
  | blank => st
  | ppImport p => ppEmit st (ppImport p)
  | ppInclude p => ppEmit st (ppInclude p)
  | externCOpen => ppEmit st externCOpen
  | externCClose => ppEmit st externCClose
  | declStart p => ppEmit st (declStart p)
  | declCont s => ppEmit st (declCont s)
  | funcDefLine p => ppEmit st (funcDefLine p)
  | structDefLine n => ppEmit st (structDefLine n)
  | controlFlowLine s => ppEmit st (controlFlowLine s)
  | statementLine s => ppEmit st (statementLine s)

/-- Run the preprocessor on a line sequence from an initial macro set. -/
def ppRun (defined : List String) (ls : List HeaderLine) : PPState :=
  ls.foldl ppStep { defined := defined, stack := [], emitted := [] }

/-- The lines a translation unit whose macro set is `defined` receives from
the sequence `ls`. -/
def ppEmitted (defined : List String) (ls : List HeaderLine) : List HeaderLine :=
  (ppRun defined ls).emitted

/-- The initial macro set of a translation unit: `__cplusplus` is defined
exactly when the unit is compiled as C++. -/
def modeDefines (isCpp : Bool) : List String :=
  if isCpp then ["__cplusplus"] else []

/-! ## Linkage of the emitted declarations -/

/-- Linkage of a declared function symbol. -/
inductive Linkage where
  | c
  | cpp
deriving DecidableEq, BEq

/-- Scan the emitted lines and attach a linkage to every function
declaration: in a C++ translation unit a declaration has C++ linkage unless
it is inside an `extern "C"` block; in a C translation unit every
declaration has C linkage. `d` counts the open `extern "C"` braces. -/
def scanLinkage (isCpp : Bool) : List HeaderLine → Nat → List (FunPrototype × Linkage)
  | [], _ => []
  | externCOpen :: rest, d => scanLinkage isCpp rest (d + 1)
  | externCClose :: rest, d => scanLinkage isCpp rest (d - 1)
  | declStart p :: rest, d =>
      (p, if isCpp && d == 0 then Linkage.cpp else Linkage.c)
        :: scanLinkage isCpp rest d
  | _ :: rest, d => scanLinkage isCpp rest d

/-- The declaration surface of the header in a given compilation mode:
each declared prototype with its linkage, after preprocessing. -/
def declSurface (isCpp : Bool) : List (FunPrototype × Linkage) :=
  scanLinkage isCpp (ppEmitted (modeDefines isCpp) tcLines) 0

/-- `beforeIn ls a b`: some occurrence of `a` in `ls` strictly precedes an
occurrence of `b`. -/
def beforeIn : List HeaderLine → HeaderLine → HeaderLine → Bool
  | [], _, _ => false
  | x :: xs, a, b => if x == a then xs.contains b else beforeIn xs a b

/-- The lines the header contributes to a C translation unit on first
inclusion (the `extern "C"` braces are conditioned out). -/
def emittedLinesC : List HeaderLine :=
  [ ppImport "mbedtls/ssl.h", ppImport "mbedtls/net_sockets.h"
  , ppImport "mbedtls/entropy.h", ppImport "mbedtls/ctr_drbg.h"
  , ppImport "mbedtls/error.h", ppImport "mbedtls/debug.h"
  , ppImport "mbedtls/timing.h", ppImport "mbedtls/ssl_ciphersuites.h"
  , ppInclude "stddef.h"
  , declStart ecjpakePrototype
  , declCont "const unsigned char *pw,"
  , declCont "size_t pw_len);" ]

/-- The lines the header contributes to a C++ translation unit on first
inclusion (the prototype is wrapped in the `extern "C"` braces). -/
def emittedLinesCpp : List HeaderLine :=
  [ ppImport "mbedtls/ssl.h", ppImport "mbedtls/net_sockets.h"
  , ppImport "mbedtls/entropy.h", ppImport "mbedtls/ctr_drbg.h"
  , ppImport "mbedtls/error.h", ppImport "mbedtls/debug.h"
  , ppImport "mbedtls/timing.h", ppImport "mbedtls/ssl_ciphersuites.h"
  , ppInclude "stddef.h"
  , externCOpen
  , declStart ecjpakePrototype
  , declCont "const unsigned char *pw,"
  , declCont "size_t pw_len);"
  , externCClose ]

/-! ## Preprocessor lemmas -/

lemma beq_cplusplus_guard : ("__cplusplus" == "ThreadCommissioner_h") = false := by
  decide

set_option maxHeartbeats 1600000 in
/-- When the include-guard macro is already defined, running the header
changes nothing: the guarded region is skipped whole and the stack returns
to where it started. -/
lemma pp_skip (D : List String) (E : List HeaderLine)
    (hc : D.contains "ThreadCommissioner_h" = true) :
    List.foldl ppStep { defined := D, stack := [], emitted := E } tcLines =
      { defined := D, stack := [], emitted := E } := by
  simp only [tcLines, List.foldl_cons, List.foldl_nil, ppStep, ppEmit, ppActive,
    List.all_cons, List.all_nil, List.tail_cons, hc, Bool.not_true,
    Bool.and_false, Bool.and_true, Bool.false_and, Bool.true_and,
    if_false, if_true, Bool.false_eq_true, ite_false, ite_true]

/-- Running the header once from a fresh state: with the guard already
defined nothing happens; otherwise the guard macro is defined and the
mode-appropriate lines are emitted. -/
lemma pp_run_tc (D : List String) :
    ppRun D tcLines =
      if D.contains "ThreadCommissioner_h" then
        { defined := D, stack := [], emitted := [] }
      else
        { defined := "ThreadCommissioner_h" :: D, stack := []
          emitted :=
            if D.contains "__cplusplus" then emittedLinesCpp else emittedLinesC } := by
  cases hc : D.contains "ThreadCommissioner_h" with
  | true =>
      simp only [ppRun, hc, if_true, ite_true]
      exact pp_skip D [] hc
  | false =>
      cases hp : D.contains "__cplusplus" with
      | true =>
          simp only [ppRun, tcLines, List.foldl_cons, List.foldl_nil, ppStep,
            ppEmit, ppActive, List.all_cons, List.all_nil, List.tail_cons,
            List.contains_cons, hc, hp, beq_cplusplus_guard, Bool.not_false,
            Bool.not_true, Bool.and_false, Bool.and_true, Bool.false_and,
            Bool.true_and, Bool.false_or, Bool.or_false, Bool.or_true,
            Bool.true_or, if_false, if_true, ite_false, ite_true,
            Bool.false_eq_true, emittedLinesCpp, List.nil_append,
            List.cons_append, List.append_nil]
      | false =>
          simp only [ppRun, tcLines, List.foldl_cons, List.foldl_nil, ppStep,
            ppEmit, ppActive, List.all_cons, List.all_nil, List.tail_cons,
            List.contains_cons, hc, hp, beq_cplusplus_guard, Bool.not_false,
            Bool.not_true, Bool.and_false, Bool.and_true, Bool.false_and,
            Bool.true_and, Bool.false_or, Bool.or_false, Bool.or_true,
            Bool.true_or, if_false, if_true, ite_false, ite_true,
            Bool.false_eq_true, emittedLinesC, List.nil_append,
            List.cons_append, List.append_nil]

/-! ## Claim theorems -/

/-- C1: the prototype declared in the header matches exactly the signature
given in the spec's external-interfaces section: a function named
`mbedtls_ssl_set_hs_ecjpake_password` returning `int` and taking exactly the
three parameters `mbedtls_ssl_context *ssl`, `const unsigned char *pw` and
`size_t pw_len`, in that order. -/
theorem c1_prototype_matches_spec :
    ecjpakePrototype = specEcjpakeSignature ∧
    tcLines.contains (HeaderLine.declStart ecjpakePrototype) = true ∧
    ecjpakePrototype.name = "mbedtls_ssl_set_hs_ecjpake_password" ∧
    ecjpakePrototype.ret = CType.int ∧
    ecjpakePrototype.params.map CParamDecl.type =
      [ CType.pointer (CType.named "mbedtls_ssl_context")
      , CType.pointer (CType.constQual CType.unsignedChar)
      , CType.size_t ] := by
  refine ⟨rfl, ?_, rfl, rfl, rfl⟩
  decide

/-- C2: the header declares exactly one function prototype of its own
(`mbedtls_ssl_set_hs_ecjpake_password`) beyond the headers it re-exports,
and contains no definition (no body) for it. -/
theorem c2_one_own_prototype_no_definition :
    tcLines.filterMap ownPrototypeOf = [ecjpakePrototype] ∧
    tcLines.countP (fun l => isFuncDefLine l) = 0 := by
  decide

/-- C3: the file contains no original logic: no function definition, no
data-structure definition, no control flow, no executable statement; every
line is a preprocessor directive, a comment, a blank line, or part of the
single extern declaration, and there is exactly one declaration. -/
theorem c3_no_original_logic :
    tcLines.all (fun l => !(isOriginalLogic l)) = true ∧
    tcLines.all (fun l =>
      isPpDirective l || isCommentLine l || isBlankLine l ||
        isExternDeclPart l) = true ∧
    tcLines.countP (fun l => isDeclStart l) = 1 := by
  decide

/-- C4 counterexample: the file is not made up exclusively of include
directives, guard macros and the extern declaration: its first line is a
comment, which is none of those three kinds, so the claim that 100% of the
36 lines belong to those three kinds is false. -/
theorem c4_counterexample :
    tcLines.contains (HeaderLine.comment "") = true ∧
    isIncludeGuardOrExtern (HeaderLine.comment "") = false ∧
    tcLines.all (fun l => isIncludeGuardOrExtern l) = false := by
  decide

/-- C4 amended: the file is exactly 36 lines long, and every line is an
include directive, a guard-macro directive, part of the single extern
declaration (its `extern "C"` wrapper lines included), a comment, or a
blank line. -/
theorem c4_amended_line_budget :
    tcLines.length = 36 ∧
    tcLines.all (fun l =>
      isIncludeGuardOrExtern l || isCommentLine l || isBlankLine l) = true := by
  decide

/-- C5: the header pulls in exactly the eight mbedTLS headers `ssl.h`,
`net_sockets.h`, `entropy.h`, `ctr_drbg.h`, `error.h`, `debug.h`,
`timing.h` and `ssl_ciphersuites.h`, and in both compilation modes every
one of those import directives survives preprocessing into the including
translation unit. -/
theorem c5_reexports_mbedtls_headers :
    tcLines.filterMap importPathOf = mbedtlsImports ∧
    ∀ b : Bool,
      (ppEmitted (modeDefines b) tcLines).filterMap importPathOf =
        mbedtlsImports := by
  refine ⟨by decide, ?_⟩
  intro b
  cases b <;> decide

/-- C7: including the header a second time in the same translation unit
adds nothing: for every initial macro set of the includer, preprocessing
the header twice emits exactly the lines preprocessing it once emits, so
repeated inclusion never produces duplicate declarations. -/
theorem c7_include_guard_idempotent (D : List String) :
    ppEmitted D (tcLines ++ tcLines) = ppEmitted D tcLines := by
  have hrun : ppRun D (tcLines ++ tcLines) =
      List.foldl ppStep (ppRun D tcLines) tcLines := by
    simp only [ppRun, List.foldl_append]
  cases hc : D.contains "ThreadCommissioner_h" with
  | true =>
      simp only [ppEmitted, hrun, pp_run_tc D, hc, if_true, ite_true]
      rw [pp_skip D [] hc]
  | false =>
      have hg : ("ThreadCommissioner_h" :: D).contains "ThreadCommissioner_h"
          = true := by
        simp [List.contains_cons]
      simp only [ppEmitted, hrun, pp_run_tc D, hc, if_false, ite_false,
        Bool.false_eq_true]
      rw [pp_skip ("ThreadCommissioner_h" :: D) _ hg]

/-- C8: the declaration surface a C++ translation unit sees is the same as
the one a C translation unit sees: in both modes the header contributes the
single prototype with C linkage, the C++ side getting it through the
`extern "C"` block. -/
theorem c8_cpp_surface_equals_c_surface :
    declSurface true = declSurface false ∧
    declSurface true = [(ecjpakePrototype, Linkage.c)] := by
  decide

/-- C9: whatever the includer defined beforehand, whenever the prototype
using `size_t` is emitted at all, the `#include <stddef.h>` directive (line
21) is emitted strictly before it (lines 28-30), so `size_t` is declared
before its use. -/
theorem c9_stddef_before_decl (D : List String)
    (h : (ppEmitted D tcLines).contains
      (HeaderLine.declStart ecjpakePrototype) = true) :
    beforeIn (ppEmitted D tcLines) (HeaderLine.ppInclude "stddef.h")
      (HeaderLine.declStart ecjpakePrototype) = true := by
  cases hc : D.contains "ThreadCommissioner_h" with
  | true =>
      have hcm : "ThreadCommissioner_h" ∈ D := by simpa using hc
      have he : ppEmitted D tcLines = [] := by
        simp [ppEmitted, pp_run_tc D, hcm]
      rw [he] at h
      exact absurd h (by decide)
  | false =>
      have hcm : "ThreadCommissioner_h" ∉ D := by simpa using hc
      cases hp : D.contains "__cplusplus" with
      | true =>
          have hpm : "__cplusplus" ∈ D := by simpa using hp
          have he : ppEmitted D tcLines = emittedLinesCpp := by
            simp [ppEmitted, pp_run_tc D, hcm, hpm]
          rw [he]
          decide
      | false =>
          have hpm : "__cplusplus" ∉ D := by simpa using hp
          have he : ppEmitted D tcLines = emittedLinesC := by
            simp [ppEmitted, pp_run_tc D, hcm, hpm]
          rw [he]
          decide

/-- C9 witness: in a fresh C translation unit the prototype is emitted, and
the theorem yields that the `stddef.h` include precedes it. -/
theorem c9_stddef_before_decl_witness :
    beforeIn (ppEmitted [] tcLines) (HeaderLine.ppInclude "stddef.h")
      (HeaderLine.declStart ecjpakePrototype) = true :=
  c9_stddef_before_decl [] (by decide)
